import Mathlib

/-!
Verification of the Constraint & Connector Resolution Engine of
`migen/build/generic_platform.py` (the `migen` build-platform library).

The Python source is shallowly embedded below.  Python exceptions become an
explicit `PyErr` error type carried in `Except`; functions whose Python
originals mutate `self` return the updated state explicitly; the unbounded
recursion of `ConnectorManager.resolve_identifier` is modelled with an
explicit fuel parameter, where a result of `none` for every fuel value means
the Python original recurses without bound on that input.  String splitting
is implemented over `List Char` so that every definition evaluates inside
the kernel.
-/

namespace Migen

/-- Python exceptions raised (directly or indirectly) by the engine.
`constraintError` is the `ConstraintError` class of the source; the others
are the built-in Python exceptions that the source can raise. -/
inductive PyErr where
  | constraintError (msg : String)
  | valueError (msg : String)
  | keyError
  | indexError
  | typeError
  | assertionError
  | attributeError
  | notImplementedError
  deriving DecidableEq, Repr

/-! ### Python-style string primitives (over `List Char`, kernel-reducible) -/

/-- Split a character list at every occurrence of `c`, keeping empty pieces,
like Python `str.split(sep)` with an explicit separator. -/
def splitChar (c : Char) : List Char → List (List Char)
  | [] => [[]]
  | x :: xs =>
    let r := splitChar c xs
    if x == c then [] :: r
    else
      match r with
      | [] => [[x]]
      | y :: ys => (x :: y) :: ys

/-- Python `identifier.split(sep)` for a one-character separator. -/
def pySplit (c : Char) (s : String) : List String :=
  (splitChar c s.toList).map String.mk

/-- Whitespace test matching Python `str.split()` token separation. -/
def isSpaceChar (c : Char) : Bool :=
  c == ' ' || c == '\t' || c == '\n' || c == '\r'

/-- Tokenizer behind `pySplitWs`: `acc` is the current token, reversed. -/
def wsTokens (acc : List Char) : List Char → List (List Char)
  | [] => if acc.isEmpty then [] else [acc.reverse]
  | c :: cs =>
    if isSpaceChar c then
      if acc.isEmpty then wsTokens [] cs else acc.reverse :: wsTokens [] cs
    else wsTokens (c :: acc) cs

/-- Python `str.split()` with no argument: split on whitespace runs and drop
empty tokens. -/
def pySplitWs (s : String) : List String :=
  (wsTokens [] s.toList).map String.mk

/-- Python `str.isdigit()` restricted to ASCII decimal digits. -/
def isDigits (s : String) : Bool :=
  !s.toList.isEmpty && s.toList.all Char.isDigit

/-- Python `int(s)` on a string of decimal digits. -/
def digitsToNat (s : String) : Nat :=
  s.toList.foldl (fun n c => n * 10 + (c.toNat - 48)) 0

/-! ### Descriptor model -/

/-- The constraint-element vocabulary: the classes `Pins`, `IOStandard`,
`Drive`, `Misc`, `PlatformInfo` and `Subsignal` of the source.  A
`Subsignal` carries its own constraint list (per the data model, a
sub-element never nests another sub-element's role in shape inference;
the source only ever inspects `Pins` inside it). -/
inductive Element where
  | pins (identifiers : List String)
  | iostandard (name : String)
  | drive (strength : String)
  | misc (value : String)
  | platformInfo (info : String)
  | subsignal (name : String) (constraints : List Element)

/-- Structural equality on constraint elements (used by `list.remove` on the
`available` pool). -/
def elementBeq : Element → Element → Bool
  | .pins a, .pins b => a == b
  | .iostandard a, .iostandard b => a == b
  | .drive a, .drive b => a == b
  | .misc a, .misc b => a == b
  | .platformInfo a, .platformInfo b => a == b
  | .subsignal n cs, .subsignal m ds => n == m && goList cs ds
  | _, _ => false
where goList : List Element → List Element → Bool
  | [], [] => true
  | a :: as, b :: bs => elementBeq a b && goList as bs
  | _, _ => false

instance : BEq Element := ⟨elementBeq⟩

/-- Python `Pins(*identifiers)`: each argument is split on whitespace and the
tokens are concatenated, in order. -/
def Pins (identifiers : List String) : Element :=
  .pins (identifiers.foldl (fun acc i => acc ++ pySplitWs i) [])

/-- Is this element a `Pins` instance? -/
def isPins : Element → Bool
  | .pins _ => true
  | _ => false

/-- Is this element a `Subsignal` instance? -/
def isSubsignal : Element → Bool
  | .subsignal _ _ => true
  | _ => false

/-- A resource descriptor `(name, number, *constraints)`. -/
structure Resource where
  name : String
  number : Option Int
  elements : List Element

instance : BEq Resource :=
  ⟨fun a b => a.name == b.name && a.number == b.number
      && elementBeq.goList a.elements b.elements⟩

/-- Render a resource number the way Python prints it in the
`ConstraintError` message (`None` or the integer). -/
def numberStr : Option Int → String
  | none => "None"
  | some k => toString k

/-- The `"Resource not found: {}:{}"` message of the source. -/
def notFoundMsg (name : String) (number : Option Int) : String :=
  "Resource not found: " ++ name ++ ":" ++ numberStr number

/-- Python `_lookup(description, name, number)`: first descriptor whose name
matches and whose number matches (`number is None` matches any number);
raises `ConstraintError` when none does. -/
def _lookup (description : List Resource) (name : String) (number : Option Int) :
    Except PyErr Resource :=
  match description.find?
      (fun resource => resource.name == name
        && (number.isNone || resource.number == number)) with
  | some resource => .ok resource
  | none => .error (.constraintError (notFoundMsg name number))

/-! ### Shape inference (`_resource_type`) -/

/-- The value of the local `t` of `_resource_type` once it is known:
an `int` (scalar width) or a list of `(field_name, n_bits)` pairs. -/
inductive RType where
  | scalar (width : Nat)
  | layout (fields : List (String × Option Nat))
  deriving Repr

/-- Inner loop of `_resource_type` over a `Subsignal`'s constraints:
finds the sub-element's `Pins` width, asserting there is at most one. -/
def subsignalBits (constraints : List Element) : Except PyErr (Option Nat) :=
  constraints.foldl
    (fun acc c =>
      match acc with
      | .error e => .error e
      | .ok nBits =>
        match c with
        | .pins ids =>
          match nBits with
          | some _ => .error .assertionError
          | none => .ok (some ids.length)
        | _ => .ok nBits)
    (.ok none)

/-- One iteration of the `for element in resource[2:]` loop of
`_resource_type`, acting on the accumulated `t`.  A failed Python `assert`
becomes `AssertionError`. -/
def rtStep (acc : Except PyErr (Option RType)) (element : Element) :
    Except PyErr (Option RType) :=
  match acc with
  | .error e => .error e
  | .ok t =>
    match element with
    | .pins ids =>
      match t with
      | none => .ok (some (.scalar ids.length))
      | some _ => .error .assertionError
    | .subsignal nm cs =>
      let t0 : RType := match t with | none => .layout [] | some x => x
      match t0 with
      | .scalar _ => .error .assertionError
      | .layout fields =>
        match subsignalBits cs with
        | .error e => .error e
        | .ok nBits => .ok (some (.layout (fields ++ [(nm, nBits)])))
    | _ => .ok t

/-- Python `_resource_type(resource)`: `None`, an `int` width, or a sub-element
layout list, computed from the descriptor's constraints. -/
def _resource_type (resource : Resource) : Except PyErr (Option RType) :=
  resource.elements.foldl rtStep (.ok none)

/-! ### Allocated signals -/

/-- The object allocated by `request`: the `Signal` / `Record` instance,
together with the `platform_info` attribute optionally stamped on it. -/
inductive SigObj where
  | signal (width : Nat) (nameOverride : String) (platformInfo : Option String)
  | record (layout : List (String × Option Nat)) (name : String)
      (platformInfo : Option String)

/-- Modelled from the spec: the allocated-signal constructors (`Signal` from
`migen.fhdl.structure` and `Record` from `migen.genlib.record`) are not part
of this source file.  Per the spec an allocated signal is either a scalar
bit-vector of the inferred width or a composite record built from an ordered
sequence of `(field_name, field_width)` fields; building a record from the
absent shape `none` (Python `Record(None, ...)`, which iterates over `None`)
fails with a type error. -/
def mkObj (rt : Option RType) (name : String) : Except PyErr SigObj :=
  match rt with
  | some (.scalar w) => .ok (.signal w name none)
  | some (.layout fields) => .ok (.record fields name none)
  | none => .error .typeError

/-- The `for element in resource[2:] ... break` loop of `request`: the first
`PlatformInfo` payload, if any. -/
def findPlatformInfo (elements : List Element) : Option String :=
  elements.findSome? (fun e =>
    match e with
    | .platformInfo i => some i
    | _ => none)

/-- Stamp `obj.platform_info` when a payload was found. -/
def setPlatformInfo (obj : SigObj) (info : Option String) : SigObj :=
  match info with
  | none => obj
  | some i =>
    match obj with
    | .signal w n _ => .signal w n (some i)
    | .record f n _ => .record f n (some i)

/-! ### Connector table (`ConnectorManager`) -/

/-- A key into a connector's pin collection: Python turns an all-digit key
into an `int` index, any other key stays a string. -/
inductive ConnKey where
  | idx (n : Nat)
  | key (s : String)
  deriving DecidableEq, Repr

/-- One connector's pin collection: the index-addressed list built from the
string form (with the `"None"` token mapped to the unconnected sentinel
`none`), or a key-addressed mapping supplied pre-built. -/
inductive ConnEntry where
  | pinList (pins : List (Option String))
  | pinDict (pins : List (ConnKey × Option String))
  deriving DecidableEq, Repr

/-- The caller-supplied shape of one connector passed to `add_connectors`:
`(name, "pins ...", ...)` string form, `(name, {...})` dict form, or any
other second-element type (rejected). -/
inductive ConnectorDecl where
  | strs (name : String) (pins : List String)
  | dict (name : String) (pins : List (ConnKey × Option String))
  | unsupported (name : String)

/-- The connector table: insertion-ordered mapping from connector name to
its pin collection. -/
structure ConnectorManager where
  connector_table : List (String × ConnEntry)
  deriving Repr

/-- Register one connector, as one iteration of `add_connectors`:
build the pin list (string form maps the token `"None"` to the unconnected
sentinel), reject an unsupported pin-list type with `ValueError`, reject a
duplicate name with `ValueError`. -/
def ConnectorManager.add_connector (mgr : ConnectorManager) (c : ConnectorDecl) :
    Except PyErr ConnectorManager :=
  match c with
  | .strs conn_name pins =>
    let pin_list := pins.foldl (fun acc p => acc ++ pySplitWs p) []
    let pin_list := pin_list.map (fun pin => if pin == "None" then none else some pin)
    if mgr.connector_table.any (fun kv => kv.1 == conn_name) then
      .error (.valueError ("Connector specified more than once: " ++ conn_name))
    else .ok ⟨mgr.connector_table ++ [(conn_name, .pinList pin_list)]⟩
  | .dict conn_name pins =>
    if mgr.connector_table.any (fun kv => kv.1 == conn_name) then
      .error (.valueError ("Connector specified more than once: " ++ conn_name))
    else .ok ⟨mgr.connector_table ++ [(conn_name, .pinDict pins)]⟩
  | .unsupported conn_name =>
    .error (.valueError ("Unsupported pin list type for connector " ++ conn_name))

/-- Python `add_connectors(connectors)`: register each connector in order; an error
midway leaves the connectors registered so far in the table. -/
def ConnectorManager.add_connectors :
    ConnectorManager → List ConnectorDecl → (Option PyErr) × ConnectorManager
  | mgr, [] => (none, mgr)
  | mgr, c :: rest =>
    match mgr.add_connector c with
    | .error e => (some e, mgr)
    | .ok mgr' => ConnectorManager.add_connectors mgr' rest

/-- Python `self.connector_table[conn]`: `KeyError` when the connector is absent. -/
def connectorLookup (mgr : ConnectorManager) (conn : String) : Except PyErr ConnEntry :=
  match mgr.connector_table.find? (fun kv => kv.1 == conn) with
  | some kv => .ok kv.2
  | none => .error .keyError

/-- Python `if pn.isdigit(): pn = int(pn)`. -/
def pinKey (pn : String) : ConnKey :=
  if isDigits pn then .idx (digitsToNat pn) else .key pn

/-- Python `self.connector_table[conn][pn]`: positional index into the list form
(`IndexError` out of range, `TypeError` for a string index), key lookup in
the dict form (`KeyError` when absent). -/
def connectorPin (entry : ConnEntry) (k : ConnKey) : Except PyErr (Option String) :=
  match entry, k with
  | .pinList pins, .idx i =>
    match pins.get? i with
    | some p => .ok p
    | none => .error .indexError
  | .pinList _, .key _ => .error .typeError
  | .pinDict d, k =>
    match d.find? (fun kv => kv.1 == k) with
    | some kv => .ok kv.2
    | none => .error .keyError

/-- Python `resolve_identifier(identifier)`, with an explicit recursion budget.
The argument is `none` when the Python call receives the unconnected
sentinel `None`, on which `":" in identifier` raises `TypeError`.
An identifier containing `":"` is split; splitting into more than two parts
makes the Python tuple unpacking raise `ValueError`.  A result of `none`
means the budget was exhausted: the source recursion has not terminated
within `fuel` nested calls (the source has no cycle guard). -/
def ConnectorManager.resolve_identifier (mgr : ConnectorManager) :
    Nat → Option String → Option (Except PyErr String)
  | _, none => some (.error .typeError)
  | 0, some _ => none
  | fuel + 1, some identifier =>
    match pySplit ':' identifier with
    | [conn, pn] =>
      match connectorLookup mgr conn with
      | .error e => some (.error e)
      | .ok entry =>
        match connectorPin entry (pinKey pn) with
        | .error e => some (.error e)
        | .ok target => mgr.resolve_identifier fuel target
    | [_] => some (.ok identifier)
    | _ => some (.error (.valueError "too many values to unpack"))

/-- The list comprehension of `resolve_identifiers`, left to right; the
first exception aborts the whole comprehension. -/
def resolveList (mgr : ConnectorManager) (fuel : Nat) :
    List String → Option (Except PyErr (List String))
  | [] => some (.ok [])
  | i :: rest =>
    match mgr.resolve_identifier fuel (some i) with
    | none => none
    | some (.error e) => some (.error e)
    | some (.ok r) =>
      match resolveList mgr fuel rest with
      | none => none
      | some (.error e) => some (.error e)
      | some (.ok rs) => some (.ok (r :: rs))

/-- Python `resolve_identifiers(identifiers)`: the argument is `none` when the
Python call receives `None` (iterating it raises `TypeError`). -/
def ConnectorManager.resolve_identifiers (mgr : ConnectorManager) (fuel : Nat) :
    Option (List String) → Option (Except PyErr (List String))
  | none => some (.error .typeError)
  | some ids => resolveList mgr fuel ids

/-! ### Constraint manager -/

/-- Python `_separate_pins(constraints)`: split a constraint list into the `Pins`
identifiers (at most one `Pins`, asserted) and the remaining constraints in
order. -/
def _separate_pins (constraints : List Element) :
    Except PyErr (Option (List String) × List Element) :=
  constraints.foldl
    (fun acc c =>
      match acc with
      | .error e => .error e
      | .ok (pins, others) =>
        match c with
        | .pins ids =>
          match pins with
          | some _ => .error .assertionError
          | none => .ok (some ids, others)
        | _ => .ok (pins, others ++ [c]))
    (.ok (none, []))

/-- A reference to an elementary signal in a flatten entry: the whole
allocated object, or one named field of a composite record
(`getattr(obj, element.name)`). -/
inductive SigRef where
  | whole (obj : SigObj)
  | field (obj : SigObj) (fieldName : String)

/-- Modelled from the spec: `getattr(obj, name)` on an allocated composite
signal (the `Record` class is not part of this source file) selects the
named field; a missing field, or field access on a scalar `Signal`, raises
`AttributeError`. -/
def getattrField (obj : SigObj) (fieldName : String) : Except PyErr SigRef :=
  match obj with
  | .record layout _ _ =>
    if layout.any (fun f => f.1 == fieldName) then .ok (.field obj fieldName)
    else .error .attributeError
  | .signal _ _ _ => .error .attributeError

/-- The diagnostic tag `(name, number, subsignal-name-or-None)` of a flatten
entry. -/
abbrev ResTag := String × Option Int × Option String

/-- One entry of `get_sig_constraints`:
`(sig, pins, others, (name, number, subname))`. -/
abbrev Entry := SigRef × List String × List Element × ResTag

/-- A value bound in a platform command, or named in a flatten entry: an
allocated signal reference, or any other object the caller supplied (the
spec's concrete scenario binds a literal pin string). -/
inductive NamedObj where
  | ref (r : SigRef)
  | lit (s : String)

/-- Python `ConstraintManager` state: the `available` pool, the append-only
`matched` association, the registered platform commands and the connector
table. -/
structure ConstraintManager where
  available : List Resource
  matched : List (Resource × SigObj)
  platform_commands : List (String × List (String × NamedObj))
  connector_manager : ConnectorManager

/-- A `ConstraintManager` with nothing registered. -/
def cmEmpty : ConstraintManager :=
  { available := [], matched := [], platform_commands := [],
    connector_manager := ⟨[]⟩ }

/-- Python `ConstraintManager.__init__(io, connectors)`. -/
def mkConstraintManager (io : List Resource) (connectors : List ConnectorDecl) :
    (Option PyErr) × ConstraintManager :=
  match ConnectorManager.add_connectors ⟨[]⟩ connectors with
  | (e, mgr) =>
    (e, { available := io, matched := [], platform_commands := [],
          connector_manager := mgr })

/-- Python `add_extension(io)`. -/
def ConstraintManager.add_extension (cm : ConstraintManager) (io : List Resource) :
    ConstraintManager :=
  { cm with available := cm.available ++ io }

/-- Python `ConstraintManager.add_connectors(connectors)` (delegation). -/
def ConstraintManager.add_connectors (cm : ConstraintManager)
    (connectors : List ConnectorDecl) : (Option PyErr) × ConstraintManager :=
  match cm.connector_manager.add_connectors connectors with
  | (e, mgr) => (e, { cm with connector_manager := mgr })

/-- Python `request(name, number=None)`: look up the first matching available
descriptor, infer its shape, allocate the signal object, stamp the first
`PlatformInfo` payload, then (only on success) remove the descriptor from
`available` and append the pair to `matched`.  The updated state is
returned alongside the result; every error path leaves the state as it
was. -/
def ConstraintManager.request (cm : ConstraintManager) (name : String)
    (number : Option Int) : (Except PyErr SigObj) × ConstraintManager :=
  match _lookup cm.available name number with
  | .error e => (.error e, cm)
  | .ok resource =>
    match _resource_type resource with
    | .error e => (.error e, cm)
    | .ok rt =>
      match mkObj rt resource.name with
      | .error e => (.error e, cm)
      | .ok obj0 =>
        let obj := setPlatformInfo obj0 (findPlatformInfo resource.elements)
        (.ok obj,
         { cm with
            available := cm.available.erase resource,
            matched := cm.matched ++ [(resource, obj)] })

/-- Python `lookup_request(name, number=None)`: first matched pair whose key
matches (`None` matches any number); read-only. -/
def ConstraintManager.lookup_request (cm : ConstraintManager) (name : String)
    (number : Option Int) : Except PyErr SigObj :=
  match cm.matched.find?
      (fun rm => rm.1.name == name
        && (number.isNone || rm.1.number == number)) with
  | some rm => .ok rm.2
  | none => .error (.constraintError (notFoundMsg name number))

/-- Python `add_platform_command(command, **signals)`: store the pair verbatim. -/
def ConstraintManager.add_platform_command (cm : ConstraintManager)
    (command : String) (signals : List (String × NamedObj)) : ConstraintManager :=
  { cm with platform_commands := cm.platform_commands ++ [(command, signals)] }

/-- Python `get_platform_commands()`. -/
def ConstraintManager.get_platform_commands (cm : ConstraintManager) :
    List (String × List (String × NamedObj)) :=
  cm.platform_commands

/-- The `if has_subsignals` branch of `get_sig_constraints`: the second
`for element in resource[2:]` loop, emitting one entry per `Subsignal` in
declaration order.  Resolution reads the connector table and never writes
it. -/
def flattenSubs (mgr : ConnectorManager) (fuel : Nat) (topConstraints : List Element)
    (obj : SigObj) (name : String) (number : Option Int) :
    List Element → Option (Except PyErr (List Entry))
  | [] => some (.ok [])
  | element :: rest =>
    match element with
    | .subsignal sname scs =>
      match getattrField obj sname with
      | .error e => some (.error e)
      | .ok sig =>
        match _separate_pins (topConstraints ++ scs) with
        | .error e => some (.error e)
        | .ok (pins, others) =>
          match mgr.resolve_identifiers fuel pins with
          | none => none
          | some (.error e) => some (.error e)
          | some (.ok rpins) =>
            match flattenSubs mgr fuel topConstraints obj name number rest with
            | none => none
            | some (.error e) => some (.error e)
            | some (.ok tail) =>
              some (.ok ((sig, rpins, others, (name, number, some sname)) :: tail))
    | _ => flattenSubs mgr fuel topConstraints obj name number rest

/-- The body of `get_sig_constraints` for one matched `(resource, obj)`
pair: separate top-level constraints from `Subsignal`s, then emit one entry
per sub-element (composite) or a single whole-signal entry (scalar). -/
def flattenResource (mgr : ConnectorManager) (fuel : Nat) (resource : Resource)
    (obj : SigObj) : Option (Except PyErr (List Entry)) :=
  let top_constraints := resource.elements.filter (fun e => !isSubsignal e)
  if resource.elements.any isSubsignal then
    flattenSubs mgr fuel top_constraints obj resource.name resource.number
      resource.elements
  else
    match _separate_pins top_constraints with
    | .error e => some (.error e)
    | .ok (pins, others) =>
      match mgr.resolve_identifiers fuel pins with
      | none => none
      | some (.error e) => some (.error e)
      | some (.ok rpins) =>
        some (.ok [(.whole obj, rpins, others, (resource.name, resource.number, none))])

/-- The `for resource, obj in self.matched` loop of `get_sig_constraints`,
in matched order; an exception aborts the whole call. -/
def flattenMatched (mgr : ConnectorManager) (fuel : Nat) :
    List (Resource × SigObj) → Option (Except PyErr (List Entry))
  | [] => some (.ok [])
  | (resource, obj) :: rest =>
    match flattenResource mgr fuel resource obj with
    | none => none
    | some (.error e) => some (.error e)
    | some (.ok es) =>
      match flattenMatched mgr fuel rest with
      | none => none
      | some (.error e) => some (.error e)
      | some (.ok tail) => some (.ok (es ++ tail))

/-- Python `get_sig_constraints()` with the resolution recursion budget made
explicit. -/
def ConstraintManager.get_sig_constraints (cm : ConstraintManager) (fuel : Nat) :
    Option (Except PyErr (List Entry)) :=
  flattenMatched cm.connector_manager fuel cm.matched

/-! ### Platform command rendering -/

/-- The characters `U+007B` and `U+007D` delimiting a template
placeholder. -/
def lbrace : Char := Char.ofNat 123

/-- See `lbrace`. -/
def rbrace : Char := Char.ofNat 125

/-- Modelled from the spec: `template.format(**name_dict)` (the Python
built-in `str.format` is not part of this source file).  Per the spec,
rendering substitutes each named placeholder with the mapped name and fails
when the template references a placeholder absent from the bindings
(`KeyError`).  The second argument is the placeholder name currently being
collected, reversed (`none` outside a placeholder); an unterminated
placeholder fails with `ValueError`. -/
def formatGo (args : List (String × String)) :
    List Char → Option (List Char) → Except PyErr String
  | [], none => .ok ""
  | [], some _ => .error (.valueError "unterminated placeholder")
  | c :: rest, none =>
    if c == lbrace then formatGo args rest (some [])
    else
      match formatGo args rest none with
      | .error e => .error e
      | .ok s => .ok (String.mk (c :: s.toList))
  | c :: rest, some key =>
    if c == rbrace then
      match args.find? (fun kv => kv.1 == String.mk key.reverse) with
      | none => .error .keyError
      | some kv =>
        match formatGo args rest none with
        | .error e => .error e
        | .ok s => .ok (kv.2 ++ s)
    else formatGo args rest (some (c :: key))

/-- Python `template.format(**name_dict)`. -/
def strFormat (template : String) (args : List (String × String)) :
    Except PyErr String :=
  formatGo args template.toList none

/-- The platform-command rendering loop of `resolve_signals`: for each
stored `(template, args)` pair, in registration order, build the
placeholder-to-name dictionary by applying the external namer to each bound
value, then substitute into the template. -/
def renderPlatformCommands (vns : NamedObj → String) :
    List (String × List (String × NamedObj)) → Except PyErr (List String)
  | [] => .ok []
  | (template, args) :: rest =>
    let name_dict := args.map (fun kv => (kv.1, vns kv.2))
    match strFormat template name_dict with
    | .error e => .error e
    | .ok s =>
      match renderPlatformCommands vns rest with
      | .error e => .error e
      | .ok ss => .ok (s :: ss)

/-! ### `GenericPlatform` -/

/-- The design fragment handed to `finalize`, reduced to the one attribute
the engine inspects (`fragment.clock_domains`); netlist generation is an
external collaborator. -/
structure Fragment where
  clock_domains : List String

/-- Python `GenericPlatform` state.  The `default_clk_name` / `default_clk_period`
attributes that subclasses may set are modelled as options (`hasattr`
becomes `isSome`); file/source-tree management (`sources`, `add_source`,
`copy_sources`) is out of the engine's scope and not modelled. -/
structure GenericPlatform where
  device : String
  constraint_manager : ConstraintManager
  name : String
  finalized : Bool
  default_clk_name : Option String
  default_clk_period : Option Nat

/-- Python `GenericPlatform.request` delegates to the constraint manager; note
that it performs no finalization check. -/
def GenericPlatform.request (p : GenericPlatform) (name : String)
    (number : Option Int) : (Except PyErr SigObj) × GenericPlatform :=
  match p.constraint_manager.request name number with
  | (r, cm') => (r, { p with constraint_manager := cm' })

/-- Python `GenericPlatform.lookup_request` (delegation, read-only). -/
def GenericPlatform.lookup_request (p : GenericPlatform) (name : String)
    (number : Option Int) : Except PyErr SigObj :=
  p.constraint_manager.lookup_request name number

/-- Python `GenericPlatform.add_extension` (delegation; no finalization check). -/
def GenericPlatform.add_extension (p : GenericPlatform) (io : List Resource) :
    GenericPlatform :=
  { p with constraint_manager := p.constraint_manager.add_extension io }

/-- Python `GenericPlatform.add_connectors` (delegation; no finalization check). -/
def GenericPlatform.add_connectors (p : GenericPlatform)
    (connectors : List ConnectorDecl) : (Option PyErr) × GenericPlatform :=
  match p.constraint_manager.add_connectors connectors with
  | (e, cm') => (e, { p with constraint_manager := cm' })

/-- Python `GenericPlatform.add_platform_command` (delegation). -/
def GenericPlatform.add_platform_command (p : GenericPlatform) (command : String)
    (signals : List (String × NamedObj)) : GenericPlatform :=
  { p with constraint_manager :=
      p.constraint_manager.add_platform_command command signals }

/-- The base-class `do_finalize`: when `default_clk_period` is set, look up
the default clock request and pass it to `add_period_constraint`, swallowing
only `ConstraintError` from the lookup.  Accessing a missing
`default_clk_name` raises `AttributeError`, and the base-class
`add_period_constraint` raises `NotImplementedError` (neither is caught by
the `except ConstraintError` clause). -/
def GenericPlatform.do_finalize (p : GenericPlatform) : Except PyErr Unit :=
  match p.default_clk_period with
  | none => .ok ()
  | some _ =>
    match p.default_clk_name with
    | none => .error .attributeError
    | some clk =>
      match p.constraint_manager.lookup_request clk none with
      | .error (.constraintError _) => .ok ()
      | .error e => .error e
      | .ok _ => .error .notImplementedError

/-- Python `finalize(fragment)`: reject a second call with
`ConstraintError("Already finalized")`; when the fragment has no clock
domain, request the default clock (failing with `NotImplementedError` when
none is declared) and drive a default clock domain (the `CRG` helper is an
external collaborator, modelled from the spec as adding the default domain);
then run `do_finalize` and mark the platform finalized.  Any error
propagates and leaves `finalized` unset. -/
def GenericPlatform.finalize (p : GenericPlatform) (fragment : Fragment) :
    (Except PyErr Unit) × GenericPlatform × Fragment :=
  if p.finalized then
    (.error (.constraintError "Already finalized"), p, fragment)
  else
    if fragment.clock_domains.isEmpty then
      match p.default_clk_name with
      | none => (.error .notImplementedError, p, fragment)
      | some clk =>
        match p.request clk none with
        | (.error e, p') => (.error e, p', fragment)
        | (.ok _, p') =>
          let fragment' : Fragment :=
            { fragment with clock_domains := fragment.clock_domains ++ ["sys"] }
          match p'.do_finalize with
          | .error e => (.error e, p', fragment')
          | .ok _ => (.ok (), { p' with finalized := true }, fragment')
    else
      match p.do_finalize with
      | .error e => (.error e, p, fragment)
      | .ok _ => (.ok (), { p with finalized := true }, fragment)

/-- Python `resolve_signals(vns)`: flatten the matched constraints, replace each
elementary signal with its externally assigned name, and render the stored
platform commands in registration order. -/
def GenericPlatform.resolve_signals (p : GenericPlatform) (vns : NamedObj → String)
    (fuel : Nat) :
    Option (Except PyErr (List (String × List String × List Element × ResTag)
      × List String)) :=
  match p.constraint_manager.get_sig_constraints fuel with
  | none => none
  | some (.error e) => some (.error e)
  | some (.ok sc) =>
    let named_sc := sc.map (fun ent =>
      (vns (.ref ent.1), ent.2.1, ent.2.2.1, ent.2.2.2))
    match renderPlatformCommands vns p.constraint_manager.platform_commands with
    | .error e => some (.error e)
    | .ok named_pc => some (.ok (named_sc, named_pc))

/-! ### Fixtures: concrete states used by the theorems below -/

/-- A connector table with a two-connector reference cycle:
`A:0 ↦ B:0 ↦ A:0`, registered through `add_connectors`. -/
def cycCM : ConnectorManager :=
  (ConnectorManager.add_connectors ⟨[]⟩
    [.strs "A" ["B:0"], .strs "B" ["A:0"]]).2

/-- An acyclic two-hop chain: `A:0 ↦ B:1 ↦ P7` (terminal). -/
def chainCM : ConnectorManager :=
  (ConnectorManager.add_connectors ⟨[]⟩
    [.strs "A" ["B:1"], .strs "B" ["X P7"]]).2

/-- A connector registered in string form whose second entry is the
`"None"` token, hence mapped to the unconnected sentinel. -/
def sentinelCM : ConnectorManager :=
  (ConnectorManager.add_connectors ⟨[]⟩ [.strs "J1" ["P1 None"]]).2

/-- First `("clk", None, Pins("X1"))` descriptor of the spec's
double-request scenario. -/
def rClk1 : Resource := ⟨"clk", none, [Pins ["X1"]]⟩

/-- Second `("clk", None, Pins("X2"))` descriptor of the scenario. -/
def rClk2 : Resource := ⟨"clk", none, [Pins ["X2"]]⟩

/-- Pool holding the two `clk` descriptors, in registration order. -/
def cmClk : ConstraintManager := { cmEmpty with available := [rClk1, rClk2] }

/-- A descriptor with neither a top-level `Pins` nor any `Subsignal`. -/
def rMal : Resource := ⟨"x", none, [.iostandard "LVCMOS33"]⟩

/-- Pool holding only the shapeless descriptor. -/
def cmMal : ConstraintManager := { cmEmpty with available := [rMal] }

/-- A scalar resource of width 2 together with its allocated signal. -/
def rScalar : Resource := ⟨"s", none, [Pins ["P1 P2"]]⟩

/-- See `rScalar`. -/
def objScalar : SigObj := .signal 2 "s" none

/-- A two-field composite resource together with its allocated record. -/
def rComp : Resource :=
  ⟨"c", none, [.subsignal "a" [Pins ["P3"]], .subsignal "b" [Pins ["P4"]]]⟩

/-- See `rComp`. -/
def objComp : SigObj := .record [("a", some 1), ("b", some 1)] "c" none

/-- Matched set holding one scalar and one 2-field composite resource. -/
def cmC8 : ConstraintManager :=
  { cmEmpty with matched := [(rScalar, objScalar), (rComp, objComp)] }

/-- An already-finalized platform that still has an available descriptor. -/
def platFin : GenericPlatform :=
  { device := "dev", constraint_manager := { cmEmpty with available := [rClk1] },
    name := "plat", finalized := true,
    default_clk_name := none, default_clk_period := none }

/-- The allocated signal of the platform-command rendering scenario. -/
def sigLed : SigObj := .signal 1 "led" none

/-- A platform holding one stored platform command whose template binds a
literal pin string to `p` and an allocated signal to `sig`. -/
def plat9 : GenericPlatform :=
  { device := "dev",
    constraint_manager :=
      cmEmpty.add_platform_command "set_property PACKAGE_PIN {p} [get_ports {sig}]"
        [("p", .lit "H16"), ("sig", .ref (.whole sigLed))],
    name := "plat", finalized := false,
    default_clk_name := none, default_clk_period := none }

/-- Pool state after the first `request("clk")` of the scenario. -/
def cmClk1 : ConstraintManager := (cmClk.request "clk" none).2

/-- Pool state after the second `request("clk")` of the scenario. -/
def cmClk2 : ConstraintManager := (cmClk1.request "clk" none).2

/-- Number of elementary signals of a matched resource: one per
`Subsignal` when the resource is composite, one for the whole signal
otherwise. -/
def elementarySignalCount (r : Resource) : Nat :=
  if r.elements.any isSubsignal then (r.elements.filter isSubsignal).length
  else 1

/-- The three flatten entries of the `cmC8` matched set. -/
def c8Entries : List Entry :=
  [(.whole objScalar, ["P1", "P2"], [], ("s", none, none)),
   (.field objComp "a", ["P3"], [], ("c", none, some "a")),
   (.field objComp "b", ["P4"], [], ("c", none, some "b"))]

/-- A concrete external namer mapping the allocated signal to `"led_0"`
and any literal binding to itself. -/
def vnsLed : NamedObj → String := fun o =>
  match o with
  | .ref _ => "led_0"
  | .lit s => s

/-- A pool whose only entry is the number-`None` descriptor `rClk1`. -/
def cmJustClk : ConstraintManager := { cmEmpty with available := [rClk1] }

/-! ### Helper lemmas -/

/-- On the cyclic table, resolution of either entry point consumes every
recursion budget without producing a result: the source recursion never
terminates. -/
lemma cyc_diverges : ∀ n : Nat,
    cycCM.resolve_identifier n (some "A:0") = none ∧
    cycCM.resolve_identifier n (some "B:0") = none := by
  intro n
  induction n with
  | zero => exact ⟨rfl, rfl⟩
  | succ n ih => exact ⟨ih.2, ih.1⟩

/-- Any successful resolution result is a terminal pin name: it contains no
connector separator (its one-character split has a single piece). -/
lemma resolve_ok_terminal (mgr : ConnectorManager) :
    ∀ (fuel : Nat) (i s : String),
      mgr.resolve_identifier fuel (some i) = some (.ok s) →
      (pySplit ':' s).length = 1 := by
  intro fuel
  induction fuel with
  | zero =>
    intro i s h
    simp [ConnectorManager.resolve_identifier] at h
  | succ n ih =>
    intro i s h
    rw [ConnectorManager.resolve_identifier] at h
    rcases hp : pySplit ':' i with _ | ⟨a, rest⟩
    · rw [hp] at h; simp at h
    · cases rest with
      | nil =>
        rw [hp] at h; simp at h
        rw [← h, hp]
        rfl
      | cons b rest2 =>
        cases rest2 with
        | nil =>
          rw [hp] at h
          simp only [] at h
          cases hl : connectorLookup mgr a with
          | error e => rw [hl] at h; simp at h
          | ok entry =>
            rw [hl] at h
            simp only [] at h
            cases hpin : connectorPin entry (pinKey b) with
            | error e => rw [hpin] at h; simp at h
            | ok target =>
              rw [hpin] at h
              simp only [] at h
              cases target with
              | none => simp [ConnectorManager.resolve_identifier] at h
              | some t => exact ih t s h
        | cons c rest3 =>
          rw [hp] at h; simp at h

/-- An identifier without a connector separator is already terminal and is
returned unchanged (given any nonzero budget). -/
lemma resolve_terminal_id (mgr : ConnectorManager) (fuel : Nat) (i : String)
    (h : (pySplit ':' i).length = 1) :
    mgr.resolve_identifier (fuel + 1) (some i) = some (.ok i) := by
  rcases hp : pySplit ':' i with _ | ⟨a, rest⟩
  · rw [hp] at h; simp at h
  · cases rest with
    | nil => rw [ConnectorManager.resolve_identifier, hp]
    | cons b rest2 => rw [hp] at h; simp at h

/-- A successful `resolveList` run is an order-preserving elementwise map:
the result has the same length and the `j`-th output is the resolution of
the `j`-th input. -/
lemma resolveList_map (mgr : ConnectorManager) (fuel : Nat) :
    ∀ (ids rs : List String), resolveList mgr fuel ids = some (.ok rs) →
      rs.length = ids.length ∧
      ∀ (j : Nat) (a : String), ids.get? j = some a →
        ∃ b, rs.get? j = some b ∧
          mgr.resolve_identifier fuel (some a) = some (.ok b) := by
  intro ids
  induction ids with
  | nil =>
    intro rs h
    simp [resolveList] at h
    subst h
    exact ⟨rfl, by intro j a hj; simp at hj⟩
  | cons i rest ih =>
    intro rs h
    rw [resolveList] at h
    cases hr : mgr.resolve_identifier fuel (some i) with
    | none => rw [hr] at h; simp at h
    | some x =>
      rw [hr] at h
      cases x with
      | error e => simp at h
      | ok r =>
        simp only [] at h
        cases hrest : resolveList mgr fuel rest with
        | none => rw [hrest] at h; simp at h
        | some y =>
          rw [hrest] at h
          cases y with
          | error e => simp at h
          | ok rs2 =>
            simp at h
            obtain ⟨hlen, hmap⟩ := ih rs2 hrest
            refine ⟨by rw [← h]; simp [hlen], ?_⟩
            intro j a hj
            cases j with
            | zero =>
              have h0 : some i = some a := hj
              obtain rfl := Option.some.inj h0
              exact ⟨r, by rw [← h]; rfl, hr⟩
            | succ j =>
              have hj' : rest.get? j = some a := hj
              obtain ⟨b, hb1, hb2⟩ := hmap j a hj'
              refine ⟨b, ?_, hb2⟩
              rw [← h]
              exact hb1

/-- A constraint element that is neither `Pins` nor `Subsignal` leaves the
`_resource_type` accumulator unchanged. -/
lemma rtStep_meta (acc : Except PyErr (Option RType)) (e : Element)
    (h1 : isPins e = false) (h2 : isSubsignal e = false) :
    rtStep acc e = acc := by
  cases acc with
  | error e0 => rfl
  | ok t =>
    cases e with
    | pins ids => simp [isPins] at h1
    | subsignal nm cs => simp [isSubsignal] at h2
    | iostandard n => rfl
    | drive s => rfl
    | misc v => rfl
    | platformInfo i => rfl

/-- A run of non-`Pins`, non-`Subsignal` elements leaves the
`_resource_type` accumulator unchanged. -/
lemma foldl_rtStep_meta :
    ∀ (l : List Element) (acc : Except PyErr (Option RType)),
      (∀ e ∈ l, isPins e = false ∧ isSubsignal e = false) →
      l.foldl rtStep acc = acc := by
  intro l
  induction l with
  | nil => intro acc _; rfl
  | cons x xs ih =>
    intro acc h
    have hx := h x (List.mem_cons_self x xs)
    rw [List.foldl_cons, rtStep_meta acc x hx.1 hx.2]
    exact ih acc (fun e he => h e (List.mem_cons_of_mem x he))

/-- The sub-element loop of the flattener emits exactly one entry per
`Subsignal` of the traversed list. -/
lemma flattenSubs_length (mgr : ConnectorManager) (fuel : Nat)
    (topCs : List Element) (obj : SigObj) (nm : String) (num : Option Int) :
    ∀ (l : List Element) (es : List Entry),
      flattenSubs mgr fuel topCs obj nm num l = some (.ok es) →
      es.length = (l.filter isSubsignal).length := by
  intro l
  induction l with
  | nil =>
    intro es h
    simp [flattenSubs] at h
    simp [← h]
  | cons el rest ih =>
    intro es h
    cases el with
    | subsignal sname scs =>
      rw [flattenSubs] at h
      cases hg : getattrField obj sname with
      | error e => rw [hg] at h; simp at h
      | ok sig =>
        rw [hg] at h
        simp only [] at h
        cases hs : _separate_pins (topCs ++ scs) with
        | error e => rw [hs] at h; simp at h
        | ok po =>
          rw [hs] at h
          obtain ⟨pins, others⟩ := po
          simp only [] at h
          cases hr : mgr.resolve_identifiers fuel pins with
          | none => rw [hr] at h; simp at h
          | some x =>
            rw [hr] at h
            cases x with
            | error e => simp at h
            | ok rpins =>
              simp only [] at h
              cases hrec : flattenSubs mgr fuel topCs obj nm num rest with
              | none => rw [hrec] at h; simp at h
              | some y =>
                rw [hrec] at h
                cases y with
                | error e => simp at h
                | ok tail =>
                  simp at h
                  rw [← h]
                  simp [List.filter_cons, isSubsignal, ih tail hrec]
    | pins ids =>
      have h' : flattenSubs mgr fuel topCs obj nm num rest = some (.ok es) := h
      simp only [List.filter_cons, isSubsignal]
      exact ih es h'
    | iostandard n =>
      have h' : flattenSubs mgr fuel topCs obj nm num rest = some (.ok es) := h
      simp only [List.filter_cons, isSubsignal]
      exact ih es h'
    | drive s =>
      have h' : flattenSubs mgr fuel topCs obj nm num rest = some (.ok es) := h
      simp only [List.filter_cons, isSubsignal]
      exact ih es h'
    | misc v =>
      have h' : flattenSubs mgr fuel topCs obj nm num rest = some (.ok es) := h
      simp only [List.filter_cons, isSubsignal]
      exact ih es h'
    | platformInfo i =>
      have h' : flattenSubs mgr fuel topCs obj nm num rest = some (.ok es) := h
      simp only [List.filter_cons, isSubsignal]
      exact ih es h'

/-- Flattening one matched resource emits exactly its elementary-signal
count. -/
lemma flattenResource_length (mgr : ConnectorManager) (fuel : Nat)
    (resource : Resource) (obj : SigObj) (es : List Entry)
    (h : flattenResource mgr fuel resource obj = some (.ok es)) :
    es.length = elementarySignalCount resource := by
  rw [flattenResource] at h
  by_cases hc : resource.elements.any isSubsignal
  · rw [if_pos hc] at h
    rw [elementarySignalCount, if_pos hc]
    exact flattenSubs_length mgr fuel _ obj resource.name resource.number
      resource.elements es h
  · rw [if_neg hc] at h
    rw [elementarySignalCount, if_neg hc]
    cases hs : _separate_pins (resource.elements.filter (fun e => !isSubsignal e)) with
    | error e => rw [hs] at h; simp at h
    | ok po =>
      rw [hs] at h
      obtain ⟨pins, others⟩ := po
      simp only [] at h
      cases hr : mgr.resolve_identifiers fuel pins with
      | none => rw [hr] at h; simp at h
      | some x =>
        rw [hr] at h
        cases x with
        | error e => simp at h
        | ok rpins =>
          simp at h
          rw [← h]
          rfl

/-- Flattening the matched list emits the total elementary-signal count. -/
lemma flattenMatched_length (mgr : ConnectorManager) (fuel : Nat) :
    ∀ (ms : List (Resource × SigObj)) (es : List Entry),
      flattenMatched mgr fuel ms = some (.ok es) →
      es.length = (ms.map (fun rm => elementarySignalCount rm.1)).sum := by
  intro ms
  induction ms with
  | nil =>
    intro es h
    simp [flattenMatched] at h
    simp [← h]
  | cons rm rest ih =>
    intro es h
    obtain ⟨resource, obj⟩ := rm
    rw [flattenMatched] at h
    cases hf : flattenResource mgr fuel resource obj with
    | none => rw [hf] at h; simp at h
    | some x =>
      rw [hf] at h
      cases x with
      | error e => simp at h
      | ok es1 =>
        simp only [] at h
        cases hrest : flattenMatched mgr fuel rest with
        | none => rw [hrest] at h; simp at h
        | some y =>
          rw [hrest] at h
          cases y with
          | error e => simp at h
          | ok tail =>
            simp at h
            rw [← h]
            simp [flattenResource_length mgr fuel resource obj es1 hf,
              ih tail hrest]

/-! ### C1: termination of connector resolution -/

/-- Claim C1 counterexample: on the cyclic connector table `A:0 ↦ B:0 ↦ A:0`
resolution never produces any outcome — neither a pin name nor an error of
any kind — for any recursion budget: `resolve_identifier` recurses without
bound instead of reporting a cyclic-reference error. -/
theorem resolve_cycle_reports_nothing :
    ¬ ∃ (fuel : Nat) (r : Except PyErr String),
      cycCM.resolve_identifier fuel (some "A:0") = some r := by
  rintro ⟨fuel, r, h⟩
  rw [(cyc_diverges fuel).1] at h
  exact Option.noConfusion h

/-- Claim C1 (amended): resolving an identifier that enters a cyclic
connector chain does not terminate — the recursion consumes every budget
without producing a result (the code has no cycle guard and raises no
dedicated error); every successful resolution returns a terminal pin name
(one containing no connector separator); and a concrete acyclic two-hop
chain resolves to its terminal pin. -/
theorem resolve_termination_behavior :
    (∀ fuel : Nat, cycCM.resolve_identifier fuel (some "A:0") = none)
    ∧ (∀ (mgr : ConnectorManager) (fuel : Nat) (i s : String),
        mgr.resolve_identifier fuel (some i) = some (.ok s) →
        (pySplit ':' s).length = 1)
    ∧ chainCM.resolve_identifier 3 (some "A:0") = some (.ok "P7") :=
  ⟨fun fuel => (cyc_diverges fuel).1, resolve_ok_terminal, rfl⟩

/-- Claim C1 witness: the terminal-result part of
`resolve_termination_behavior` applied to the concrete acyclic chain. -/
theorem resolve_termination_behavior_witness :
    (pySplit ':' "P7").length = 1 :=
  resolve_termination_behavior.2.1 chainCM 3 "A:0" "P7" rfl

/-! ### C2: descriptor with neither pins nor sub-elements -/

/-- Claim C2 counterexample: requesting the descriptor
`("x", None, IOStandard("LVCMOS33"))` — no top-level `Pins`, no
`Subsignal` — fails with the `TypeError` arising from building a record
from the absent shape, not with any configuration error raised by the
engine (shape inference returns `None` without complaint). -/
theorem malformed_request_fails_with_type_error :
    cmMal.request "x" none = (.error .typeError, cmMal)
    ∧ _resource_type rMal = .ok none :=
  ⟨rfl, rfl⟩

/-- Claim C2 (amended): for every descriptor whose constraints contain
neither a top-level `Pins` nor any `Subsignal`, shape inference yields no
shape (`none`, with no error), and `request` on it fails with the type
error from the record constructor — allocating no signal and leaving the
pool untouched — rather than with a dedicated configuration error. -/
theorem malformed_descriptor_behavior :
    ∀ (cm : ConstraintManager) (name : String) (number : Option Int)
      (r : Resource),
      _lookup cm.available name number = .ok r →
      (∀ e ∈ r.elements, isPins e = false ∧ isSubsignal e = false) →
      _resource_type r = .ok none
      ∧ cm.request name number = (.error .typeError, cm) := by
  intro cm name number r hlook hmeta
  have hrt : _resource_type r = .ok none := by
    rw [_resource_type]
    exact foldl_rtStep_meta r.elements (.ok none) hmeta
  refine ⟨hrt, ?_⟩
  unfold ConstraintManager.request
  rw [hlook]
  simp only []
  rw [hrt]
  rfl

/-- Claim C2 witness: `malformed_descriptor_behavior` applied to the
concrete shapeless descriptor pool. -/
theorem malformed_descriptor_behavior_witness :
    _resource_type rMal = .ok none
    ∧ cmMal.request "x" none = (.error .typeError, cmMal) :=
  malformed_descriptor_behavior cmMal "x" none rMal rfl
    (by intro e he; simp [cmMal, cmEmpty, rMal] at he; subst he;
        exact ⟨rfl, rfl⟩)

/-! ### C3: resolve_many order preservation and the unconnected sentinel -/

/-- Claim C3 counterexample: the connector `("J1", "P1 None")` registers
the sentinel at index 1, and resolving the indirect reference `J1:1`
through `resolve_identifiers` raises `TypeError` (the resolver applies the
separator test to the sentinel) instead of passing the sentinel through. -/
theorem sentinel_resolution_raises :
    sentinelCM.resolve_identifiers 5 (some ["J1:1"])
      = some (.error .typeError) := rfl

/-- Claim C3 (amended): `resolve_identifiers` applies `resolve_identifier`
to each identifier preserving order (same length, `j`-th output resolves
the `j`-th input); a terminal identifier — including the literal string
`"None"` — passes through unchanged; but an indirect reference whose
connector entry is the unconnected sentinel raises a type error rather
than passing the sentinel through. -/
theorem resolve_many_behavior :
    (∀ (mgr : ConnectorManager) (fuel : Nat) (ids rs : List String),
      mgr.resolve_identifiers fuel (some ids) = some (.ok rs) →
      rs.length = ids.length ∧
      ∀ (j : Nat) (a : String), ids.get? j = some a →
        ∃ b, rs.get? j = some b ∧
          mgr.resolve_identifier fuel (some a) = some (.ok b))
    ∧ (∀ (mgr : ConnectorManager) (fuel : Nat) (i : String),
        (pySplit ':' i).length = 1 →
        mgr.resolve_identifier (fuel + 1) (some i) = some (.ok i))
    ∧ sentinelCM.resolve_identifiers 2 (some ["P1", "J1:1"])
        = some (.error .typeError) :=
  ⟨fun mgr fuel ids rs h => resolveList_map mgr fuel ids rs h,
   resolve_terminal_id, rfl⟩

/-- Claim C3 witness: the terminal pass-through part of
`resolve_many_behavior` applied to the literal identifier `"None"`. -/
theorem resolve_many_behavior_witness :
    sentinelCM.resolve_identifier 1 (some "None") = some (.ok "None") :=
  resolve_many_behavior.2.1 sentinelCM 0 "None" rfl

/-! ### C4: a failed request mutates nothing -/

/-- Claim C4: whenever `request` returns an error — no matching descriptor,
a failed shape-inference assertion, or a failed signal allocation — the
returned state is exactly the state before the call: no descriptor was
removed from `available` and nothing was appended to `matched`. -/
theorem request_failure_preserves_pool :
    ∀ (cm : ConstraintManager) (name : String) (number : Option Int)
      (e : PyErr),
      (cm.request name number).1 = .error e →
      (cm.request name number).2 = cm := by
  intro cm name number e h
  unfold ConstraintManager.request at h ⊢
  cases hl : _lookup cm.available name number with
  | error e1 => rfl
  | ok r =>
    rw [hl] at h
    simp only [] at h ⊢
    cases ht : _resource_type r with
    | error e1 => rfl
    | ok rt =>
      rw [ht] at h
      simp only [] at h ⊢
      cases hm : mkObj rt r.name with
      | error e1 => rfl
      | ok obj0 =>
        rw [hm] at h
        simp at h

/-- Claim C4 witness: `request_failure_preserves_pool` on an empty pool. -/
theorem request_failure_preserves_pool_witness :
    (cmEmpty.request "x" none).2 = cmEmpty :=
  request_failure_preserves_pool cmEmpty "x" none
    (.constraintError "Resource not found: x:None") rfl

/-! ### C5: finalization state machine -/

/-- Claim C5 counterexample: a platform whose `finalized` flag is set still
accepts the mutating call `request` — the call succeeds and appends to
`matched` — so a finalized instance is not read-only. -/
theorem finalized_platform_not_read_only :
    platFin.finalized = true
    ∧ (platFin.request "clk" none).1 = .ok (.signal 1 "clk" none)
    ∧ ((platFin.request "clk" none).2).constraint_manager.matched
        = [(rClk1, .signal 1 "clk" none)] :=
  ⟨rfl, rfl, rfl⟩

/-- Claim C5 (amended): a second `finalize` attempt fails with
`ConstraintError("Already finalized")` and changes nothing; a successful
`finalize` sets the `finalized` flag; but the flag guards only `finalize`
itself — `request` (and the other mutating calls, which delegate the same
way) behaves identically whether or not the platform is finalized, so a
finalized instance is not read-only. -/
theorem finalize_state_machine :
    (∀ (p : GenericPlatform) (frag : Fragment), p.finalized = true →
      p.finalize frag
        = (.error (.constraintError "Already finalized"), p, frag))
    ∧ (∀ (p : GenericPlatform) (frag : Fragment) (p' : GenericPlatform)
        (f' : Fragment),
        p.finalize frag = (.ok (), p', f') → p'.finalized = true)
    ∧ (∀ (p : GenericPlatform) (name : String) (number : Option Int),
        GenericPlatform.request { p with finalized := true } name number
          = ((p.request name number).1,
             { (p.request name number).2 with finalized := true })) := by
  refine ⟨?_, ?_, ?_⟩
  · intro p frag h
    rw [GenericPlatform.finalize, if_pos h]
  · intro p frag p' f' h
    rw [GenericPlatform.finalize] at h
    by_cases hf : p.finalized
    · rw [if_pos hf] at h
      simp at h
    · rw [if_neg hf] at h
      by_cases hcd : frag.clock_domains.isEmpty
      · rw [if_pos hcd] at h
        cases hc : p.default_clk_name with
        | none => rw [hc] at h; simp at h
        | some clk =>
          rw [hc] at h
          simp only [] at h
          cases hreq : p.request clk none with
          | mk r p2 =>
            rw [hreq] at h
            cases r with
            | error e => simp at h
            | ok obj =>
              simp only [] at h
              cases hdf : p2.do_finalize with
              | error e => rw [hdf] at h; simp at h
              | ok u =>
                rw [hdf] at h
                simp at h
                rw [← h.1]
      · rw [if_neg hcd] at h
        cases hdf : p.do_finalize with
        | error e => rw [hdf] at h; simp at h
        | ok u =>
          rw [hdf] at h
          simp at h
          rw [← h.1]
  · intro p name number
    obtain ⟨d, cmx, nm, fin, c1, c2⟩ := p
    unfold GenericPlatform.request
    cases hcm : cmx.request name number with
    | mk r cm' => rfl

/-- Claim C5 witness: the already-finalized branch of
`finalize_state_machine` applied to the concrete finalized platform. -/
theorem finalize_state_machine_witness :
    platFin.finalize ⟨["sys"]⟩
      = (.error (.constraintError "Already finalized"), platFin, ⟨["sys"]⟩) :=
  finalize_state_machine.1 platFin ⟨["sys"]⟩ rfl

/-! ### C6: first-registered-matching wins, each descriptor consumed once -/

/-- Claim C6: with `("clk", None, Pins("X1"))` then `("clk", None,
Pins("X2"))` registered in that order, the first `request("clk")` consumes
the first descriptor (its flatten entry carries pin `X1`), the second
consumes the second (pin `X2`), and a third request fails with the
resource-not-found `ConstraintError`, changing nothing. -/
theorem clk_double_request_scenario :
    (cmClk.request "clk" none).1 = .ok (.signal 1 "clk" none)
    ∧ cmClk1.available = [rClk2]
    ∧ cmClk1.matched = [(rClk1, .signal 1 "clk" none)]
    ∧ cmClk1.get_sig_constraints 1
        = some (.ok [(.whole (.signal 1 "clk" none), ["X1"], [],
            ("clk", none, none))])
    ∧ (cmClk1.request "clk" none).1 = .ok (.signal 1 "clk" none)
    ∧ cmClk2.available = []
    ∧ cmClk2.matched
        = [(rClk1, .signal 1 "clk" none), (rClk2, .signal 1 "clk" none)]
    ∧ cmClk2.get_sig_constraints 1
        = some (.ok [(.whole (.signal 1 "clk" none), ["X1"], [],
              ("clk", none, none)),
            (.whole (.signal 1 "clk" none), ["X2"], [], ("clk", none, none))])
    ∧ cmClk2.request "clk" none
        = (.error (.constraintError "Resource not found: clk:None"), cmClk2) :=
  ⟨rfl, rfl, rfl, rfl, rfl, rfl, rfl, rfl, rfl⟩

/-! ### C7: shape inference is deterministic -/

/-- Claim C7: a descriptor whose constraints hold exactly one top-level
`Pins` of `n` identifiers (surrounded by non-pin, non-sub-element
constraints) infers the scalar shape of width `n`, and the allocated object
is a scalar signal of that width; a descriptor with sub-elements `a` and
`b` (each holding one `Pins`) and no top-level `Pins` infers the composite
layout with exactly the fields `a` and `b` of those widths, in declaration
order, allocated as a record with that layout. -/
theorem shape_inference_deterministic :
    (∀ (nm : String) (num : Option Int) (ids : List String)
        (l1 l2 : List Element),
      (∀ e ∈ l1, isPins e = false ∧ isSubsignal e = false) →
      (∀ e ∈ l2, isPins e = false ∧ isSubsignal e = false) →
      _resource_type ⟨nm, num, l1 ++ Element.pins ids :: l2⟩
        = .ok (some (.scalar ids.length)))
    ∧ (∀ (nm : String) (num : Option Int) (idsA idsB : List String),
      _resource_type ⟨nm, num,
          [.subsignal "a" [.pins idsA], .subsignal "b" [.pins idsB]]⟩
        = .ok (some (.layout
            [("a", some idsA.length), ("b", some idsB.length)])))
    ∧ (∀ (w : Nat) (nm : String),
        mkObj (some (.scalar w)) nm = .ok (.signal w nm none))
    ∧ (∀ (fields : List (String × Option Nat)) (nm : String),
        mkObj (some (.layout fields)) nm = .ok (.record fields nm none)) := by
  refine ⟨?_, ?_, fun w nm => rfl, fun fields nm => rfl⟩
  · intro nm num ids l1 l2 h1 h2
    show (l1 ++ Element.pins ids :: l2).foldl rtStep (.ok none) = _
    rw [List.foldl_append, foldl_rtStep_meta l1 _ h1, List.foldl_cons]
    exact foldl_rtStep_meta l2 _ h2
  · intro nm num idsA idsB
    rfl

/-- Claim C7 witness: `shape_inference_deterministic` at a four-identifier
pin list and at sub-elements of widths 2 and 1. -/
theorem shape_inference_deterministic_witness :
    _resource_type ⟨"vec", none, [Element.pins ["A", "B", "C", "D"]]⟩
      = .ok (some (.scalar 4))
    ∧ _resource_type ⟨"pair", none,
        [.subsignal "a" [.pins ["P1", "P2"]], .subsignal "b" [.pins ["P3"]]]⟩
      = .ok (some (.layout [("a", some 2), ("b", some 1)])) :=
  ⟨shape_inference_deterministic.1 "vec" none ["A", "B", "C", "D"] [] []
      (by intro e he; simp at he) (by intro e he; simp at he),
   shape_inference_deterministic.2.1 "pair" none ["P1", "P2"] ["P3"]⟩

/-! ### C8: flatten cardinality -/

/-- Claim C8: `get_sig_constraints` emits exactly one entry per elementary
signal — one per `Subsignal` of a composite resource, one for the whole
signal of a scalar resource — so its length is the total elementary-signal
count of the matched set, and the concrete matched set holding one scalar
and one 2-field composite resource yields exactly 3 entries.  (Resolution
is a pure reader of the connector table: the embedded flattener takes the
table as an argument and returns entries only, mirroring a source that
never assigns to `connector_table`.) -/
theorem flatten_cardinality :
    (∀ (cm : ConstraintManager) (fuel : Nat) (es : List Entry),
      cm.get_sig_constraints fuel = some (.ok es) →
      es.length = (cm.matched.map (fun rm => elementarySignalCount rm.1)).sum)
    ∧ cmC8.get_sig_constraints 1 = some (.ok c8Entries)
    ∧ c8Entries.length = 3 := by
  refine ⟨?_, rfl, rfl⟩
  intro cm fuel es h
  exact flattenMatched_length cm.connector_manager fuel cm.matched es h

/-- Claim C8 witness: the cardinality part of `flatten_cardinality` applied
to the concrete matched set. -/
theorem flatten_cardinality_witness :
    c8Entries.length
      = (cmC8.matched.map (fun rm => elementarySignalCount rm.1)).sum :=
  flatten_cardinality.1 cmC8 1 c8Entries rfl

/-! ### C9: platform command rendering -/

/-- Claim C9: rendering the stored command applies the external namer to
every bound value and substitutes into the template: with the template
`"set_property PACKAGE_PIN {p} [get_ports {sig}]"` bound to the literal
pin string `"H16"` for `p` and the allocated signal for `sig`, and a namer
mapping the signal to `"led_0"` and the literal to itself, `resolve_signals`
renders `{sig}` as `led_0` with the literal surviving for `{p}`. -/
theorem platform_command_render_scenario :
    ∀ (vns : NamedObj → String),
      vns (.ref (.whole sigLed)) = "led_0" →
      vns (.lit "H16") = "H16" →
      plat9.resolve_signals vns 1
        = some (.ok ([], ["set_property PACKAGE_PIN H16 [get_ports led_0]"])) := by
  intro vns h1 h2
  unfold GenericPlatform.resolve_signals
  have hsc : plat9.constraint_manager.get_sig_constraints 1
      = some (.ok ([] : List Entry)) := rfl
  rw [hsc]
  simp only []
  have hpc : plat9.constraint_manager.platform_commands
      = [("set_property PACKAGE_PIN {p} [get_ports {sig}]",
          [("p", NamedObj.lit "H16"), ("sig", NamedObj.ref (.whole sigLed))])] :=
    rfl
  rw [hpc, renderPlatformCommands]
  simp only [List.map]
  rw [h1, h2]
  rfl

/-- Claim C9 witness: `platform_command_render_scenario` at the concrete
namer `vnsLed`. -/
theorem platform_command_render_scenario_witness :
    plat9.resolve_signals vnsLed 1
      = some (.ok ([], ["set_property PACKAGE_PIN H16 [get_ports led_0]"])) :=
  platform_command_render_scenario vnsLed rfl rfl

/-! ### C10: the number wildcard is one-directional -/

/-- Claim C10: `request` and `lookup_request` with `number=None` match a
descriptor with any number, but a call with an explicit number only matches
a descriptor whose number equals it: a pool (or matched set) whose only
entry has number `None` makes every explicitly numbered call fail with the
resource-not-found `ConstraintError`, leaving the state unchanged. -/
theorem number_matching_one_directional :
    (∀ (cm : ConstraintManager) (r : Resource) (name : String) (k : Int),
      cm.available = [r] → r.number = none →
      cm.request name (some k)
        = (.error (.constraintError (notFoundMsg name (some k))), cm))
    ∧ (∀ (r : Resource) (name : String), r.name = name →
        _lookup [r] name none = .ok r)
    ∧ (∀ (cm : ConstraintManager) (r : Resource) (obj : SigObj)
        (name : String),
        cm.matched = [(r, obj)] → r.name = name →
        cm.lookup_request name none = .ok obj)
    ∧ (∀ (cm : ConstraintManager) (r : Resource) (obj : SigObj)
        (name : String) (k : Int),
        cm.matched = [(r, obj)] → r.number = none →
        cm.lookup_request name (some k)
          = .error (.constraintError (notFoundMsg name (some k)))) := by
  refine ⟨?_, ?_, ?_, ?_⟩
  · intro cm r name k hav hnum
    have hb : (r.number == some k) = false := by rw [hnum]; rfl
    have hl : _lookup [r] name (some k)
        = .error (.constraintError (notFoundMsg name (some k))) := by
      unfold _lookup
      simp [List.find?, hb]
    unfold ConstraintManager.request
    rw [hav, hl]
  · intro r name hname
    unfold _lookup
    simp [List.find?, hname]
  · intro cm r obj name hm hname
    unfold ConstraintManager.lookup_request
    rw [hm]
    simp [List.find?, hname]
  · intro cm r obj name k hm hnum
    have hb : (r.number == some k) = false := by rw [hnum]; rfl
    unfold ConstraintManager.lookup_request
    rw [hm]
    simp [List.find?, hb]

/-- Claim C10 witness: `number_matching_one_directional` at the
number-`None` pool `cmJustClk` with the explicit number 0. -/
theorem number_matching_one_directional_witness :
    cmJustClk.request "clk" (some 0)
      = (.error (.constraintError "Resource not found: clk:0"), cmJustClk)
    ∧ _lookup [rClk1] "clk" none = .ok rClk1 :=
  ⟨number_matching_one_directional.1 cmJustClk rClk1 "clk" 0 rfl rfl,
   number_matching_one_directional.2.1 rClk1 "clk" rfl⟩

end Migen
